import Mathlib

/-!
Shallow embedding of the `short` character driver (src/short/short.c) and of
the `sram` header (src/sram/sram.h), together with theorems settling the
specification claims about them.

Machine model: the driver targets a 64-bit platform, so C `unsigned long`
arithmetic is arithmetic modulo `2 ^ 64`; `PAGE_SIZE` is the platform page
size, `4096` on the reference platform.  Nonnegative `int` values embed into
`Nat` unchanged.
-/

/-- Platform page size (4096 bytes on the reference platform). -/
def PAGE_SIZE : ℕ := 4096

/-- Modulus of C `unsigned long` arithmetic on a 64-bit platform. -/
def ULONG_MOD : ℕ := 2 ^ 64

/-- Default of the module parameter `major` (`static int major = 0;`). -/
def major : ℕ := 0

/-- Default of the module parameter `use_mem` (`static int use_mem = 0;`). -/
def use_mem : ℕ := 0

/-- Default of the module parameter `base`
(`static unsigned long base = 0x378;`). -/
def base : ℕ := 0x378

/-- Default of the module parameter `irq` (`static int irq = -1;`). -/
def irq : Int := -1

/-- Embedding of `short_incr_bp` from src/short/short.c:

```
static inline void short_incr_bp(volatile unsigned long *index, int delta)
{
    unsigned long new = *index + delta;
    barrier(); /* don't optimize these two together */
    *index = (new >= (short_buffer + PAGE_SIZE)) ? short_buffer : new;
}
```

`short_buffer` is the global base address of the one-page ring buffer and
`*index` is the current cursor (an absolute address); the function returns the
new value stored into `*index`.  The local `new` is `*index + delta` in
`unsigned long` arithmetic (modulo `2 ^ 64`; `delta` is a nonnegative `int`
here, so its conversion to `unsigned long` is the identity).  `barrier()` is a
compiler fence with no effect on the stored value, so it has no functional
counterpart in the embedding. -/
def short_incr_bp (short_buffer : ℕ) (index : ℕ) (delta : ℕ) : ℕ :=
  if (short_buffer + PAGE_SIZE) % ULONG_MOD ≤ (index + delta) % ULONG_MOD then
    short_buffer % ULONG_MOD
  else
    (index + delta) % ULONG_MOD

/-- The operation tables a `struct file` of this driver can point to:
`short_fops` (installed at registration), `short_i_fops` (the ring-buffer
backed table, declared `extern` in `short_open`), or any table installed by
other kernel code. -/
inductive FileOperations where
  | short_fops : FileOperations
  | short_i_fops : FileOperations
  | other : ℕ → FileOperations
deriving DecidableEq

/-- The part of `struct inode` the driver reads: the minor device number
returned by `iminor(inode)`. -/
structure Inode where
  minor : ℕ
deriving DecidableEq

/-- The part of `struct file` the driver touches: the `f_op` pointer. -/
structure File where
  f_op : FileOperations
deriving DecidableEq

/-- The kernel helper `iminor`, returning the minor number of the device the
inode describes. -/
def iminor (inode : Inode) : ℕ := inode.minor

/-- Embedding of `short_open` from src/short/short.c: if bit 7 (`0x80`) of the
minor number is set, `filp->f_op` is replaced by `&short_i_fops`; the function
then returns 0.  The result is the updated `file` paired with the return
value. -/
def short_open (inode : Inode) (filp : File) : File × Int :=
  ((if iminor inode &&& 0x80 ≠ 0 then
      { filp with f_op := FileOperations.short_i_fops }
    else
      filp), 0)

/-- Embedding of `short_release` from src/short/short.c: it does nothing and
returns 0. -/
def short_release (_inode : Inode) (_filp : File) : Int := 0

/-- The `short_modes` enumerator `SHORT_DEFAULT = 0`. -/
def SHORT_DEFAULT : ℕ := 0

/-- The `short_modes` enumerator `SHORT_PAUSE = 1`. -/
def SHORT_PAUSE : ℕ := 1

/-- The `short_modes` enumerator `SHORT_STRING = 2`. -/
def SHORT_STRING : ℕ := 2

/-- The `short_modes` enumerator `SHORT_MEMORY = 3`. -/
def SHORT_MEMORY : ℕ := 3

/-- The local `port` computed in `do_short_read`
(`unsigned long port = short_base + (minor & 0x0f);`). -/
def do_short_read_port (short_base minor : ℕ) : ℕ :=
  short_base + (minor &&& 0x0f)

/-- The local `address` computed in `do_short_read`
(`void *address = (void *) short_base + (minor * 0x0f);` — note the `*`,
not `&`; `void *` arithmetic advances in bytes). -/
def do_short_read_address (short_base minor : ℕ) : ℕ :=
  short_base + minor * 0x0f

/-- The local `mode` computed in `do_short_read`
(`int mode = (minor & 0x70) >> 4;`). -/
def do_short_read_mode (minor : ℕ) : ℕ :=
  (minor &&& 0x70) >>> 4

/-- The errno constant `ENODEV` ("no such device"). -/
def ENODEV : Int := 19

/-- Data fields of `struct sram_partition` from src/sram/sram.h.  The kernel
bookkeeping members (`pool`, `battr`, `lock`, `list`) carry no data the
embedded functions read and are not modelled. -/
structure sram_partition where
  base : ℕ
deriving DecidableEq

/-- Data fields of `struct sram_dev` from src/sram/sram.h (kernel handles
`dev`, `pool`, `clk` are not modelled). -/
structure sram_dev where
  virt_base : ℕ
  partition : List sram_partition
  partitions : ℕ

/-- Data fields of `struct sram_reserve` from src/sram/sram.h (the intrusive
`list` member is not modelled). -/
structure sram_reserve where
  start : ℕ
  size : ℕ
  «export» : Bool
  pool : Bool
  protect_exec : Bool
  label : String

/-- Embedding of the `#else` (CONFIG_SRAM_EXEC undefined) definition of
`sram_check_protect_exec` in src/sram/sram.h: `return -ENODEV;`. -/
def sram_check_protect_exec (_sram : sram_dev) (_block : sram_reserve)
    (_part : sram_partition) : Int := -ENODEV

/-- Embedding of the `#else` (CONFIG_SRAM_EXEC undefined) definition of
`sram_add_protect_exec` in src/sram/sram.h: `return -ENODEV;`. -/
def sram_add_protect_exec (_part : sram_partition) : Int := -ENODEV

/-- Unfolding of `short_incr_bp` in the overflow-free regime: when the buffer
lies below the top of the address space and `index + delta` does not wrap, the
new cursor is `index + delta` unless that reaches `short_buffer + PAGE_SIZE`,
in which case it snaps back to `short_buffer`. -/
theorem short_incr_bp_eq (sb index delta : ℕ)
    (h1 : sb + PAGE_SIZE < ULONG_MOD) (h2 : index + delta < ULONG_MOD) :
    short_incr_bp sb index delta =
      if sb + PAGE_SIZE ≤ index + delta then sb else index + delta := by
  unfold short_incr_bp
  rw [Nat.mod_eq_of_lt h1, Nat.mod_eq_of_lt h2,
    Nat.mod_eq_of_lt (lt_of_le_of_lt (Nat.le_add_right sb PAGE_SIZE) h1)]

/-- C1 counterexample: with the buffer based at 0 (so cursor values are their
base-relative offsets), cursor `4095 ∈ [0, CAP)` and delta `2` give a stored
cursor of `0`, while `(4095 + 2) % CAP = 1`: `short_incr_bp` does not advance
modulo `CAP`; on overshoot it snaps to the buffer base. -/
theorem short_incr_bp_not_mod_cex :
    short_incr_bp 0 4095 2 = 0 ∧ (4095 + 2) % PAGE_SIZE = 1 ∧
      short_incr_bp 0 4095 2 ≠ (4095 + 2) % PAGE_SIZE := by
  refine ⟨?_, by decide, ?_⟩ <;> decide

/-- C1 (amended): for every base-relative cursor in `[0, CAP)` and nonnegative
delta (`CAP = PAGE_SIZE`; overflow-free address arithmetic), `short_incr_bp`
stores `cursor + delta` when that stays below `CAP`, and snaps the cursor to
`0` (the buffer base) whenever `cursor + delta ≥ CAP`. -/
theorem short_incr_bp_snap_to_zero (sb cursor delta : ℕ)
    (hc : cursor < PAGE_SIZE) (hov : sb + PAGE_SIZE + delta < ULONG_MOD) :
    short_incr_bp sb (sb + cursor) delta =
      sb + (if PAGE_SIZE ≤ cursor + delta then 0 else cursor + delta) := by
  rw [short_incr_bp_eq sb (sb + cursor) delta (by omega) (by omega)]
  split_ifs <;> omega

/-- Witness for `short_incr_bp_snap_to_zero` at the concrete input
`sb = 4096`, `cursor = 4090`, `delta = 10` (a wrapping advance). -/
theorem short_incr_bp_snap_to_zero_witness :
    4090 < PAGE_SIZE ∧ 4096 + PAGE_SIZE + 10 < ULONG_MOD ∧
      short_incr_bp 4096 (4096 + 4090) 10 =
        4096 + (if PAGE_SIZE ≤ 4090 + 10 then 0 else 4090 + 10) :=
  ⟨by decide, by decide,
    short_incr_bp_snap_to_zero 4096 4090 10 (by decide) (by decide)⟩

/-- C2: every cursor advance preserves the buffer-range invariant: if the
cursor lies in `[short_buffer, short_buffer + PAGE_SIZE)` before
`short_incr_bp` (and the address arithmetic is overflow-free), it lies in
`[short_buffer, short_buffer + PAGE_SIZE)` afterwards, for every nonnegative
delta; base-relatively, `0 ≤ cursor < CAP` is preserved. -/
theorem short_incr_bp_in_range (sb index delta : ℕ)
    (hlo : sb ≤ index) (hhi : index < sb + PAGE_SIZE)
    (hov : sb + PAGE_SIZE + delta < ULONG_MOD) :
    sb ≤ short_incr_bp sb index delta ∧
      short_incr_bp sb index delta < sb + PAGE_SIZE := by
  rw [short_incr_bp_eq sb index delta (by omega) (by omega)]
  split_ifs with h
  · refine ⟨Nat.le_refl sb, ?_⟩
    have hp : 0 < PAGE_SIZE := by decide
    omega
  · exact ⟨by omega, by omega⟩

/-- Witness for `short_incr_bp_in_range` at the concrete input `sb = 4096`,
`index = 8191` (last byte of the buffer), `delta = 2`. -/
theorem short_incr_bp_in_range_witness :
    4096 ≤ 8191 ∧ 8191 < 4096 + PAGE_SIZE ∧ 4096 + PAGE_SIZE + 2 < ULONG_MOD ∧
      4096 ≤ short_incr_bp 4096 8191 2 ∧
        short_incr_bp 4096 8191 2 < 4096 + PAGE_SIZE := by
  refine ⟨by decide, by decide, by decide, ?_, ?_⟩
  · exact (short_incr_bp_in_range 4096 8191 2 (by decide) (by decide)
      (by decide)).1
  · exact (short_incr_bp_in_range 4096 8191 2 (by decide) (by decide)
      (by decide)).2

/-- Masking with `0x0f` keeps the low four bits: it is reduction mod 16. -/
theorem and_0x0f (m : ℕ) : m &&& 0x0f = m % 16 := by
  have h := Nat.and_pow_two_sub_one_eq_mod m 4
  norm_num at h
  exact h

/-- Masking with `0x70` and shifting right by 4 extracts bits 4 to 6:
it equals `m / 16 % 8`. -/
theorem and_0x70_shiftRight (m : ℕ) : (m &&& 0x70) >>> 4 = m / 16 % 8 := by
  have h1 : (0x70 : ℕ) = (2 ^ 3 - 1) <<< 4 := by decide
  have h2 : m / 16 % 8 = (m >>> 4) % 2 ^ 3 := by
    rw [Nat.shiftRight_eq_div_pow]
    norm_num
  apply Nat.eq_of_testBit_eq
  intro i
  rw [h1, h2, Nat.testBit_shiftRight, Nat.testBit_and, Nat.testBit_shiftLeft,
    Nat.testBit_mod_two_pow, Nat.testBit_shiftRight, Nat.testBit_two_pow_sub_one]
  by_cases hi : i < 3
  · simp [hi]
  · simp [hi]

/-- Testing against the mask `0x80` is exactly testing bit 7. -/
theorem and_0x80_ne (m : ℕ) : (m &&& 0x80 ≠ 0) ↔ m.testBit 7 := by
  have h := Nat.and_two_pow m 7
  norm_num at h
  rw [h]
  cases hm : m.testBit 7 <;> simp

/-- C4: for every inode and file, `short_open` installs `short_i_fops` as the
file operation table exactly when bit 7 of the inode minor number is set, and
leaves the table unchanged when bit 7 is clear. -/
theorem short_open_installs_i_fops (inode : Inode) (filp : File) :
    (short_open inode filp).1.f_op =
      if (iminor inode).testBit 7 then FileOperations.short_i_fops
      else filp.f_op := by
  have h := and_0x80_ne (iminor inode)
  by_cases hb : (iminor inode).testBit 7 <;> simp [short_open, h, hb]

/-- C5: in `do_short_read` the memory-mapped address is computed as
`short_base + minor * 0x0f` (multiplication, not masking), and at
`minor = 1` this differs from the masked form `short_base + (minor & 0x0f)`
used for the port address. -/
theorem do_short_read_address_mul_not_mask (sb : ℕ) :
    (∀ minor, do_short_read_address sb minor = sb + minor * 0x0f) ∧
      do_short_read_address sb 1 ≠ do_short_read_port sb 1 := by
  refine ⟨fun _ => rfl, ?_⟩
  unfold do_short_read_address do_short_read_port
  have h : (1 : ℕ) &&& 0x0f = 1 := by decide
  rw [h]
  omega

/-- C6: for every minor number, the port computed by `do_short_read` is the
base plus the low four bits of the minor, and the mode is bits 4 to 6 of the
minor, `(minor & 0x70) >> 4 = minor / 16 % 8`. -/
theorem do_short_read_port_mode_bits (sb minor : ℕ) :
    do_short_read_port sb minor = sb + minor % 16 ∧
      do_short_read_mode minor = minor / 16 % 8 := by
  refine ⟨?_, ?_⟩
  · unfold do_short_read_port
    rw [and_0x0f]
  · exact and_0x70_shiftRight minor

/-- C7: with no module parameters supplied, the base port defaults to `0x378`
and the irq parameter defaults to `-1` (no interrupt binding). -/
theorem default_base_irq : base = 0x378 ∧ irq = -1 := ⟨rfl, rfl⟩

/-- C8: minor `0x40` has bit 7 clear, yet the mode `do_short_read` computes
for it is `4`, which is none of the four `short_modes` enumerators
(`SHORT_DEFAULT`, `SHORT_PAUSE`, `SHORT_STRING`, `SHORT_MEMORY`), all of
which are at most 3. -/
theorem do_short_read_mode_out_of_enum :
    (0x40 &&& 0x80 = 0) ∧ do_short_read_mode 0x40 = 4 ∧
      SHORT_MEMORY < do_short_read_mode 0x40 ∧
      do_short_read_mode 0x40 ≠ SHORT_DEFAULT ∧
      do_short_read_mode 0x40 ≠ SHORT_PAUSE ∧
      do_short_read_mode 0x40 ≠ SHORT_STRING ∧
      do_short_read_mode 0x40 ≠ SHORT_MEMORY := by
  decide

/-- C9: for every inode and file, `short_open` and `short_release` return 0:
opening and releasing the device never fail, whatever the minor number. -/
theorem short_open_release_return_zero (inode : Inode) (filp : File) :
    (short_open inode filp).2 = 0 ∧ short_release inode filp = 0 :=
  ⟨rfl, rfl⟩

/-- C10: with CONFIG_SRAM_EXEC undefined, `sram_check_protect_exec` and
`sram_add_protect_exec` return `-ENODEV` on every input, and their results do
not depend on any of their arguments. -/
theorem sram_protect_exec_enodev :
    (∀ (sram : sram_dev) (block : sram_reserve) (part : sram_partition),
        sram_check_protect_exec sram block part = -ENODEV) ∧
      (∀ part : sram_partition, sram_add_protect_exec part = -ENODEV) ∧
      (∀ (s₁ s₂ : sram_dev) (b₁ b₂ : sram_reserve) (p₁ p₂ : sram_partition),
        sram_check_protect_exec s₁ b₁ p₁ = sram_check_protect_exec s₂ b₂ p₂) ∧
      (∀ p₁ p₂ : sram_partition,
        sram_add_protect_exec p₁ = sram_add_protect_exec p₂) :=
  ⟨fun _ _ _ => rfl, fun _ => rfl, fun _ _ _ _ _ _ => rfl, fun _ _ => rfl⟩
